import Mathlib

/-!
Verification of the outcome-definition layer of the EMA workbench
(`ema_workbench/em_framework/outcomes.py`).

The module is Python 2 code (it uses `basestring`, `six` and
`from __future__ import`).  We embed it shallowly:

* Python values flowing through `process` are modelled by `Value`
  (integers, strings, lists, `None`); sized/indexable values are lists
  and strings, everything else has no length.
* The `variable_name` argument is `Option VarName`: `None`, a string,
  or a list whose elements may be strings or arbitrary non-string
  objects (`VarNameElem.other`, identified by a numeral standing for
  object identity).
* A Python callable is a `Func`: an object identity `id` (Python
  compares plain function objects by identity), a single-positional-
  argument entry point `call` and a keyword-argument entry point
  `callKw`.  Either entry point may signal a `TypeError` during
  argument binding (`CallResult.typeError`); `process` catches exactly
  that, per the `except TypeError` in the source.
* Errors raised out of a routine are `Except.error` carrying the
  `ValueError` message built by the source.
-/

namespace EMAWorkbench

/-- A Python value as seen by the outcome layer. -/
inductive Value where
  | int : Int → Value
  | str : String → Value
  | list : List Value → Value
  | pyNone : Value
deriving Repr

/-- An element of a `variable_name` list: a string, or some non-string
object identified by its object identity. -/
inductive VarNameElem where
  | str : String → VarNameElem
  | other : Nat → VarNameElem
deriving DecidableEq, Repr

/-- A non-`None` `variable_name`: a single string or a list of elements. -/
inductive VarName where
  | str : String → VarName
  | list : List VarNameElem → VarName
deriving DecidableEq, Repr

/-- Errors escaping the embedded routines (`raise ValueError(msg)`). -/
inductive PyError where
  | valueError : String → PyError
deriving DecidableEq, Repr

/-- Result of invoking a Python callable: a value, or a `TypeError`
raised during argument binding / invocation. -/
inductive CallResult where
  | ok : Value → CallResult
  | typeError : CallResult

/-- A Python callable, with its object identity and its behaviour under
the two calling conventions `process` uses. -/
structure Func where
  id : Nat
  call : Value → CallResult
  callKw : List (String × Value) → CallResult

/-- The `function` constructor argument: `None`, a callable, or a
non-callable object (identified by its object identity). -/
inductive FuncArg where
  | absent : FuncArg
  | callable : Func → FuncArg
  | notCallable : Nat → FuncArg

/-- Concrete outcome variant (the Python class of the instance). -/
inductive OutcomeClass where
  | scalar
  | timeseries
deriving DecidableEq, Repr

/-- State of a constructed outcome object: its class plus the four
instance attributes `name`, `kind`, `_variable_name`, `function`. -/
structure OutcomeObj where
  cls : OutcomeClass
  name : String
  kind : Int
  variableNameStored : Option VarName
  function : Option Func

def AbstractOutcome.MINIMIZE : Int := -1
def AbstractOutcome.MAXIMIZE : Int := 1
def AbstractOutcome.INFO : Int := 0

/-- Python truthiness of a `variable_name` value: empty strings and
empty lists are falsy. -/
def VarName.truthy : VarName → Bool
  | .str s => !(s == "")
  | .list l => !l.isEmpty

def VarNameElem.isBasestring : VarNameElem → Bool
  | .str _ => true
  | .other _ => false

/-- The failing condition of the `variable_name` validation:
`(not isinstance(vn, basestring)) and (not all(isinstance(e, basestring) for e in vn))`. -/
def varNameInvalid : VarName → Bool
  | .str _ => false
  | .list l => !(l.all VarNameElem.isBasestring)

def varNameArgTruthy : Option VarName → Bool
  | Option.none => false
  | some v => v.truthy

def varNameArgInvalid : Option VarName → Bool
  | Option.none => false
  | some v => varNameInvalid v

/-- `function is not None and not callable(function)`. -/
def functionBadArg : FuncArg → Bool
  | .notCallable _ => true
  | _ => false

/-- The value stored in `self.function` by the constructor. -/
def funcOfArg : FuncArg → Option Func
  | .callable f => some f
  | _ => Option.none

/-- `AbstractOutcome.__init__(name, kind, variable_name, function)`:
validates `function`, then a truthy `variable_name`, then stores the
attributes (the `variable_name` setter stores the raw value unchanged). -/
def AbstractOutcome.init (cls : OutcomeClass) (name : String) (kind : Int)
    (variable_name : Option VarName) (function : FuncArg) :
    Except PyError OutcomeObj :=
  if functionBadArg function then
    .error (.valueError "function must be a callable")
  else if varNameArgTruthy variable_name && varNameArgInvalid variable_name then
    .error (.valueError "variable name must be a string or list of strings")
  else
    .ok ⟨cls, name, kind, variable_name, funcOfArg function⟩

/-- `ScalarOutcome.__init__` just delegates to `AbstractOutcome.__init__`. -/
def ScalarOutcome.init (name : String) (kind : Int)
    (variable_name : Option VarName) (function : FuncArg) :
    Except PyError OutcomeObj :=
  AbstractOutcome.init OutcomeClass.scalar name kind variable_name function

/-- `callable(reduce)` as evaluated inside `TimeSeriesOutcome.__init__`:
`reduce` is neither a parameter nor an attribute there, so the name
resolves to the Python 2 builtin function `reduce`, which is callable. -/
def callable_reduce : Bool := true

/-- `TimeSeriesOutcome.__init__`: delegates to `AbstractOutcome.__init__`,
then raises `ValueError` if `kind != INFO` and `not callable(reduce)`. -/
def TimeSeriesOutcome.init (name : String) (kind : Int)
    (variable_name : Option VarName) (function : FuncArg) :
    Except PyError OutcomeObj :=
  match AbstractOutcome.init OutcomeClass.timeseries name kind variable_name function with
  | .error e => .error e
  | .ok o =>
    if !(o.kind == AbstractOutcome.INFO) && !callable_reduce then
      .error (.valueError "reduce needs to be specified when using TimeSeriesOutcome in optimization")
    else
      .ok o

/-- The deprecated factory `Outcome(name, time=False)`: returns the
emitted warning message together with the constructed object. -/
def Outcome (name : String) (time : Bool) : String × Except PyError OutcomeObj :=
  if time then
    ("Deprecated, use TimeSeriesOutcome instead",
      ScalarOutcome.init name AbstractOutcome.INFO Option.none FuncArg.absent)
  else
    ("Deprecated, use ScalarOutcome instead",
      TimeSeriesOutcome.init name AbstractOutcome.INFO Option.none FuncArg.absent)

/-- The `variable_name` property getter: the stored value when it is not
`None`, else the outcome's `name`. -/
def OutcomeObj.variable_name (o : OutcomeObj) : VarName :=
  match o.variableNameStored with
  | some v => v
  | Option.none => VarName.str o.name

/-- The sequence view of a Python value: lists are their elements,
strings are sequences of one-character strings, everything else is
unsized (`len(values)` raises `TypeError`). -/
def Value.asSeq : Value → Option (List Value)
  | .list l => some l
  | .str s => some (s.data.map fun c => Value.str (String.mk [c]))
  | _ => Option.none

/-- `len(values)` where unsized values yield `None` (the source turns the
`TypeError` raised by `len` into `len_val = None`). -/
def Value.pyLen (v : Value) : Option Nat := v.asSeq.map List.length

/-- How `str.format` renders `len_val`: a number, or `None`. -/
def lenValRepr : Option Nat → String
  | some n => toString n
  | Option.none => "None"

/-- The `ValueError` message of the arity check in `process`. -/
def arityMsg (len_var : Nat) (len_val : Option Nat) : String :=
  "number of variables is " ++ toString len_var ++
    ", number of outputs is " ++ lenValRepr len_val

/-- The keyword dictionary `{var_names[i]: values[i] for i in range(len(var_names))}`,
in insertion order, built from the name/value pairs.  `none` when some
key is not a string, in which case unpacking the dictionary with `**`
raises `TypeError` (keywords must be strings). -/
def kwargsOfPairs : List (VarNameElem × Value) → Option (List (String × Value))
  | [] => some []
  | (VarNameElem.str s, v) :: rest => (kwargsOfPairs rest).map fun k => (s, v) :: k
  | (VarNameElem.other _, _) :: _ => Option.none

/-- `AbstractOutcome.process(values)`.  The whole body runs under
`try: ... except TypeError: return values`, so a `TypeError` raised by
calling `self.function` (including `function` being `None`, hence not
callable, and non-string keyword names) yields `values` unchanged,
while the arity `ValueError` propagates. -/
def OutcomeObj.process (o : OutcomeObj) (values : Value) : Except PyError Value :=
  match o.variable_name with
  | VarName.str _ =>
    match o.function with
    | Option.none => .ok values
    | some f =>
      match f.call values with
      | .ok v => .ok v
      | .typeError => .ok values
  | VarName.list var_names =>
    match values.asSeq with
    | Option.none =>
      .error (.valueError (arityMsg var_names.length Option.none))
    | some vs =>
      if var_names.length ≠ vs.length then
        .error (.valueError (arityMsg var_names.length (some vs.length)))
      else
        match kwargsOfPairs (var_names.zip vs) with
        | Option.none => .ok values
        | some kwargs =>
          match o.function with
          | Option.none => .ok values
          | some f =>
            match f.callKw kwargs with
            | .ok v => .ok v
            | .typeError => .ok values

/-- Invoking `self.function(values)` with one positional argument:
`None` is not callable, so a stored `None` raises `TypeError`; a stored
callable behaves as its `call` entry point does. -/
def callPositional (fn : Option Func) (values : Value) : CallResult :=
  match fn with
  | Option.none => CallResult.typeError
  | some f => f.call values

/-- Invoking `self.function(**kwargs)`: a dictionary with a non-string
key (`kwargs = none`) raises `TypeError` when unpacked, a stored `None`
is not callable and raises `TypeError`, and a stored callable behaves
as its `callKw` entry point does. -/
def callKeywords (fn : Option Func) (kwargs : Option (List (String × Value))) : CallResult :=
  match fn, kwargs with
  | _, Option.none => CallResult.typeError
  | Option.none, some _ => CallResult.typeError
  | some f, some kw => f.callKw kw

/-- An attribute value as stored in an outcome's `__dict__`; the
`function` attribute compares by object identity, so only the identity
(or `None`) matters for `__eq__`. -/
inductive Attr where
  | strA : String → Attr
  | intA : Int → Attr
  | varA : Option VarName → Attr
  | funcA : Option Nat → Attr
deriving DecidableEq, Repr

/-- `self.__dict__` of a constructed outcome: exactly the four instance
attributes, in assignment order. -/
def OutcomeObj.dict (o : OutcomeObj) : List (String × Attr) :=
  [("name", Attr.strA o.name),
   ("kind", Attr.intA o.kind),
   ("_variable_name", Attr.varA o.variableNameStored),
   ("function", Attr.funcA (o.function.map Func.id))]

/-- `AbstractOutcome.__eq__(self, other)`: for every key of
`self.__dict__`, `hasattr(self, key) == hasattr(other, key)` (the left
side is `True` for a key of `self.__dict__`) and the attribute values
compare equal; and the classes coincide. -/
def OutcomeObj.pyEq (a b : OutcomeObj) : Bool :=
  (a.dict.all fun kv =>
      ((b.dict.lookup kv.1).isSome == true) &&
      (b.dict.lookup kv.1 == some kv.2)) &&
  (a.cls == b.cls)

/-- Equality as the spec words it: same concrete variant, and every
attribute present on either object is present and equal on both. -/
def OutcomeObj.specEq (a b : OutcomeObj) : Bool :=
  (a.cls == b.cls) &&
  ((a.dict.map Prod.fst ++ b.dict.map Prod.fst).all fun k =>
      (a.dict.lookup k).isSome && (b.dict.lookup k).isSome &&
      (a.dict.lookup k == b.dict.lookup k))

/-- A row of the tabular input to `create_outcomes`, with its `name` and
`type` column entries. -/
structure Row where
  name : String
  type : String

/-- The outcome a well-typed row produces. -/
def mkRowOutcome (r : Row) : OutcomeObj :=
  if r.type == "scalar" then
    ⟨OutcomeClass.scalar, r.name, AbstractOutcome.INFO, Option.none, Option.none⟩
  else
    ⟨OutcomeClass.timeseries, r.name, AbstractOutcome.INFO, Option.none, Option.none⟩

/-- `create_outcomes` over a table that has the `name` and `type`
columns: per row, dispatch on `type` (`scalar` / `timeseries` / raise),
appending to the result list in row order; the first failure aborts the
whole call. -/
def create_outcomes : List Row → Except PyError (List OutcomeObj)
  | [] => .ok []
  | r :: rs =>
    match
      (if r.type == "scalar" then
        ScalarOutcome.init r.name AbstractOutcome.INFO Option.none FuncArg.absent
      else if r.type == "timeseries" then
        TimeSeriesOutcome.init r.name AbstractOutcome.INFO Option.none FuncArg.absent
      else
        .error (PyError.valueError ("unknown type for " ++ r.name))) with
    | .error e => .error e
    | .ok o => (create_outcomes rs).map fun l => o :: l

/-- C1: the claim says `Outcome(name, time=True)` returns a
`TimeSeriesOutcome(name)` and `Outcome(name, time=False)` a
`ScalarOutcome(name)`.  The code does the opposite: with `time=True` it
warns "Deprecated, use TimeSeriesOutcome instead" yet constructs a
`ScalarOutcome`, and with `time=False` it warns "Deprecated, use
ScalarOutcome instead" yet constructs a `TimeSeriesOutcome`.  This
theorem evaluates the factory on both flag values, exhibiting the
divergence (the deprecation notice is emitted in both cases, and the
branch bodies contradict their own warning messages). -/
theorem claim_C1_code_eval (name : String) :
    Outcome name true =
      ("Deprecated, use TimeSeriesOutcome instead",
        Except.ok ⟨OutcomeClass.scalar, name, AbstractOutcome.INFO, Option.none, Option.none⟩)
    ∧ Outcome name false =
      ("Deprecated, use ScalarOutcome instead",
        Except.ok ⟨OutcomeClass.timeseries, name, AbstractOutcome.INFO, Option.none, Option.none⟩) :=
  ⟨rfl, rfl⟩

/-- C2: the claim (and the class docstring) says `TimeSeriesOutcome`
construction fails with a `ValueError`-class error when `kind != INFO`
and no reducing callable is available.  The code tests
`callable(reduce)` where `reduce` is the always-callable Python 2
builtin, so construction succeeds for every `kind` — including
`MAXIMIZE` and `MINIMIZE` with no reducer supplied anywhere. -/
theorem claim_C2_code_eval (name : String) (kind : Int) :
    TimeSeriesOutcome.init name kind Option.none FuncArg.absent =
      Except.ok ⟨OutcomeClass.timeseries, name, kind, Option.none, Option.none⟩ := by
  simp [TimeSeriesOutcome.init, AbstractOutcome.init, functionBadArg,
    varNameArgTruthy, callable_reduce, funcOfArg]

/-- C9: a falsy `variable_name` argument (the empty string or the empty
list) skips string-type validation, is stored as given, and the
`variable_name` getter returns that falsy value rather than falling
back to `name` (the fallback applies only to a stored `None`). -/
theorem claim_C9_falsy_variable_name (cls : OutcomeClass) (name : String) (kind : Int) :
    (AbstractOutcome.init cls name kind (some (VarName.str "")) FuncArg.absent =
        Except.ok ⟨cls, name, kind, some (VarName.str ""), Option.none⟩
      ∧ OutcomeObj.variable_name ⟨cls, name, kind, some (VarName.str ""), Option.none⟩ =
        VarName.str "")
    ∧ (AbstractOutcome.init cls name kind (some (VarName.list [])) FuncArg.absent =
        Except.ok ⟨cls, name, kind, some (VarName.list []), Option.none⟩
      ∧ OutcomeObj.variable_name ⟨cls, name, kind, some (VarName.list []), Option.none⟩ =
        VarName.list []) :=
  ⟨⟨rfl, rfl⟩, ⟨rfl, rfl⟩⟩

/-- Helper: the keyword dictionary built from all-string names zipped
with values is exactly the name-to-value zip. -/
theorem kwargsOfPairs_strs : ∀ (names : List String) (vs : List Value),
    kwargsOfPairs ((names.map VarNameElem.str).zip vs) = some (names.zip vs)
  | [], _ => rfl
  | _ :: _, [] => rfl
  | n :: ns, v :: vs => by
    have ih := kwargsOfPairs_strs ns vs
    simp only [List.map, List.zip_cons_cons, kwargsOfPairs, List.zip] at ih ⊢
    rw [ih]
    rfl

/-- Helper: with a multi-name `variable_name`, a length mismatch between
names and values (unsized values included) makes `process` raise the
arity `ValueError`, which the `except TypeError` handler does not catch. -/
theorem process_multi_arity_error (o : OutcomeObj) (ns : List VarNameElem) (values : Value)
    (hvn : o.variable_name = VarName.list ns)
    (hlen : values.pyLen ≠ some ns.length) :
    o.process values = Except.error (PyError.valueError (arityMsg ns.length values.pyLen)) := by
  unfold OutcomeObj.process
  rw [hvn]
  cases h : values.asSeq with
  | none => simp [Value.pyLen, h]
  | some vs =>
    have hpl : values.pyLen = some vs.length := by simp [Value.pyLen, h]
    rw [hpl] at hlen ⊢
    have hne : ns.length ≠ vs.length := fun hh => hlen (by rw [hh])
    simp [hne]

/-- Helper: `create_outcomes` on rows whose `type` entries are all
`"scalar"` or `"timeseries"` returns one outcome per row, in row order. -/
theorem create_outcomes_all_valid : ∀ rows : List Row,
    (∀ x ∈ rows, x.type = "scalar" ∨ x.type = "timeseries") →
    create_outcomes rows = Except.ok (rows.map mkRowOutcome)
  | [] => fun _ => rfl
  | r :: rs => fun h => by
    have hr := h r (List.mem_cons_self r rs)
    have ih := create_outcomes_all_valid rs fun x hx => h x (List.mem_cons_of_mem r hx)
    rcases hr with hr | hr
    · simp [create_outcomes, hr, ih, mkRowOutcome, ScalarOutcome.init,
        AbstractOutcome.init, functionBadArg, varNameArgTruthy, funcOfArg, Except.map]
    · simp [create_outcomes, hr, ih, mkRowOutcome, TimeSeriesOutcome.init,
        AbstractOutcome.init, functionBadArg, varNameArgTruthy, funcOfArg,
        callable_reduce, Except.map]

/-- Helper: the first row whose `type` is neither `"scalar"` nor
`"timeseries"` aborts the whole `create_outcomes` call with a
`ValueError` naming that row's `name`. -/
theorem create_outcomes_first_bad : ∀ (pre : List Row) (r : Row) (post : List Row),
    (∀ x ∈ pre, x.type = "scalar" ∨ x.type = "timeseries") →
    r.type ≠ "scalar" → r.type ≠ "timeseries" →
    create_outcomes (pre ++ r :: post) =
      Except.error (PyError.valueError ("unknown type for " ++ r.name))
  | [], r, post => fun _ h1 h2 => by
    simp [create_outcomes, h1, h2]
  | x :: pre, r, post => fun h h1 h2 => by
    have hx := h x (List.mem_cons_self x pre)
    have ih := create_outcomes_first_bad pre r post
      (fun y hy => h y (List.mem_cons_of_mem x hy)) h1 h2
    rcases hx with hx | hx
    · simp [create_outcomes, hx, ih, ScalarOutcome.init,
        AbstractOutcome.init, functionBadArg, varNameArgTruthy, funcOfArg, Except.map]
    · simp [create_outcomes, hx, ih, TimeSeriesOutcome.init,
        AbstractOutcome.init, functionBadArg, varNameArgTruthy, funcOfArg,
        callable_reduce, Except.map]

/-- C3: two outcome definitions compare equal under `__eq__` exactly
when they are of the same concrete class and every attribute present on
either object is present and equal on both (the `__dict__` of every
constructed outcome holds the same four attribute slots); equality is
symmetric; and a `ScalarOutcome` and a `TimeSeriesOutcome` with
identical attributes are never equal. -/
theorem claim_C3_structural_equality :
    (∀ a b : OutcomeObj, a.pyEq b = a.specEq b)
    ∧ (∀ a b : OutcomeObj, a.pyEq b = b.pyEq a)
    ∧ (∀ (n : String) (k : Int) (v : Option VarName) (f : Option Func),
        OutcomeObj.pyEq ⟨OutcomeClass.scalar, n, k, v, f⟩
          ⟨OutcomeClass.timeseries, n, k, v, f⟩ = false) := by
  refine ⟨fun a b => ?_, fun a b => ?_, fun n k v f => ?_⟩
  · rw [Bool.eq_iff_iff]
    simp [OutcomeObj.pyEq, OutcomeObj.specEq, OutcomeObj.dict, List.lookup]
    tauto
  · rw [Bool.eq_iff_iff]
    simp [OutcomeObj.pyEq, OutcomeObj.dict, List.lookup]
    tauto
  · simp [OutcomeObj.pyEq, OutcomeObj.dict]

/-- C4: for an outcome whose `variable_name` resolves to multiple
names, `process(values)` raises the arity-mismatch `ValueError`
whenever the count of declared names differs from the count of supplied
values, including when `values` has no length at all. -/
theorem claim_C4_arity_mismatch (o : OutcomeObj) (ns : List VarNameElem) (values : Value)
    (hvn : o.variable_name = VarName.list ns)
    (hlen : values.pyLen ≠ some ns.length) :
    o.process values = Except.error (PyError.valueError (arityMsg ns.length values.pyLen)) :=
  process_multi_arity_error o ns values hvn hlen

/-- Witness for C4: two declared names `a`, `b` against a single
supplied value raise the arity `ValueError`. -/
theorem claim_C4_witness :
    OutcomeObj.process
        ⟨OutcomeClass.scalar, "x", AbstractOutcome.INFO,
          some (VarName.list [VarNameElem.str "a", VarNameElem.str "b"]), Option.none⟩
        (Value.list [Value.int 1]) =
      Except.error (PyError.valueError "number of variables is 2, number of outputs is 1") :=
  claim_C4_arity_mismatch _ [VarNameElem.str "a", VarNameElem.str "b"] _ rfl (by decide)

/-- C5: for an outcome with multiple declared names and a callable
function, `process` on a same-length value list zips names to values in
order and returns the function applied to those named arguments. -/
theorem claim_C5_multi_kwargs (o : OutcomeObj) (names : List String) (vs : List Value)
    (f : Func) (r : Value)
    (hvn : o.variable_name = VarName.list (names.map VarNameElem.str))
    (hf : o.function = some f)
    (hlen : vs.length = names.length)
    (hc : f.callKw (names.zip vs) = CallResult.ok r) :
    o.process (Value.list vs) = Except.ok r := by
  unfold OutcomeObj.process
  rw [hvn]
  simp [Value.asSeq, hlen, kwargsOfPairs_strs, hf, hc]

/-- Witness for C5: names `a`, `b` zipped with values `1`, `2` are
passed as keyword arguments to a function collecting its argument
values. -/
theorem claim_C5_witness :
    OutcomeObj.process
        ⟨OutcomeClass.scalar, "x", AbstractOutcome.INFO,
          some (VarName.list [VarNameElem.str "a", VarNameElem.str "b"]),
          some ⟨0, fun _ => CallResult.typeError,
            fun kw => CallResult.ok (Value.list (kw.map Prod.snd))⟩⟩
        (Value.list [Value.int 1, Value.int 2]) =
      Except.ok (Value.list [Value.int 1, Value.int 2]) :=
  claim_C5_multi_kwargs _ ["a", "b"] [Value.int 1, Value.int 2] _ _ rfl rfl rfl rfl

/-- C6: for an outcome whose `variable_name` resolves to a single
string and whose function is callable, `process(values)` returns the
function applied to `values` as the sole positional argument. -/
theorem claim_C6_single_positional (o : OutcomeObj) (s : String) (f : Func) (values r : Value)
    (hvn : o.variable_name = VarName.str s)
    (hf : o.function = some f)
    (hc : f.call values = CallResult.ok r) :
    o.process values = Except.ok r := by
  unfold OutcomeObj.process
  rw [hvn]
  simp [hf, hc]

/-- Witness for C6: a function wrapping its positional argument in a
list, applied by `process` to the raw value `3`. -/
theorem claim_C6_witness :
    OutcomeObj.process
        ⟨OutcomeClass.scalar, "x", AbstractOutcome.INFO, Option.none,
          some ⟨1, fun v => CallResult.ok (Value.list [v]), fun _ => CallResult.typeError⟩⟩
        (Value.int 3) =
      Except.ok (Value.list [Value.int 3]) :=
  claim_C6_single_positional _ "x" _ (Value.int 3) _ rfl rfl rfl

/-- C7 counterexample: the claim says that with `function = None`,
`process(values)` returns `values` unchanged for every input.  An
outcome with two declared variable names and `function = None`, given a
one-element value list, instead raises the arity `ValueError` (only a
`TypeError` triggers the identity fallback), so `process` does not
return the values unchanged. -/
theorem claim_C7_counterexample :
    OutcomeObj.process
        ⟨OutcomeClass.scalar, "x", AbstractOutcome.INFO,
          some (VarName.list [VarNameElem.str "a", VarNameElem.str "b"]), Option.none⟩
        (Value.list [Value.int 1]) =
      Except.error (PyError.valueError "number of variables is 2, number of outputs is 1")
    ∧ (Except.error (PyError.valueError "number of variables is 2, number of outputs is 1")
        : Except PyError Value) ≠ Except.ok (Value.list [Value.int 1]) :=
  ⟨rfl, fun h => Except.noConfusion h⟩

/-- C7 amended: whenever invoking `self.function` raises a type-mismatch
(`TypeError`-style) error — `function` being `None` and thus not
invocable, a present callable raising `TypeError` during argument
binding, or non-string keyword names — `process(values)` returns
`values` unchanged, provided `variable_name` resolves to a single
string or the count of declared names matches the count of supplied
values; when `variable_name` is a name list and the counts differ (or
`values` is unsized), the arity `ValueError` is raised instead of the
identity fallback. -/
theorem claim_C7_identity_fallback :
    (∀ (o : OutcomeObj) (values : Value) (s : String),
      o.variable_name = VarName.str s →
      callPositional o.function values = CallResult.typeError →
      o.process values = Except.ok values)
    ∧ (∀ (o : OutcomeObj) (values : Value) (ns : List VarNameElem) (vs : List Value),
      o.variable_name = VarName.list ns →
      values.asSeq = some vs →
      ns.length = vs.length →
      callKeywords o.function (kwargsOfPairs (ns.zip vs)) = CallResult.typeError →
      o.process values = Except.ok values)
    ∧ (∀ (o : OutcomeObj) (ns : List VarNameElem) (values : Value),
      o.variable_name = VarName.list ns →
      values.pyLen ≠ some ns.length →
      o.process values = Except.error (PyError.valueError (arityMsg ns.length values.pyLen))) := by
  refine ⟨fun o values s hvn hc => ?_, fun o values ns vs hvn hseq hlen hc => ?_,
    fun o ns values hvn hlen => process_multi_arity_error o ns values hvn hlen⟩
  · unfold OutcomeObj.process
    rw [hvn]
    cases hf : o.function with
    | none => rfl
    | some f =>
      rw [hf] at hc
      simp only [callPositional] at hc
      simp [hc]
  · unfold OutcomeObj.process
    rw [hvn, hseq]
    simp only [hlen, ne_eq, not_true_eq_false, if_false]
    cases hk : kwargsOfPairs (ns.zip vs) with
    | none => rfl
    | some kw =>
      rw [hk] at hc
      cases hf : o.function with
      | none => rfl
      | some f =>
        rw [hf] at hc
        simp only [callKeywords] at hc
        simp [hc]

/-- Witness for C7 (amended): an outcome with no function returns the
raw value unchanged; so does one whose function raises `TypeError`
under the positional convention, and a two-name outcome whose function
raises `TypeError` on its keyword arguments. -/
theorem claim_C7_witness :
    OutcomeObj.process
        ⟨OutcomeClass.timeseries, "y", AbstractOutcome.INFO, Option.none, Option.none⟩
        (Value.int 5) =
      Except.ok (Value.int 5)
    ∧ OutcomeObj.process
        ⟨OutcomeClass.scalar, "x", AbstractOutcome.INFO, Option.none,
          some ⟨2, fun _ => CallResult.typeError, fun _ => CallResult.typeError⟩⟩
        (Value.int 3) =
      Except.ok (Value.int 3)
    ∧ OutcomeObj.process
        ⟨OutcomeClass.scalar, "x", AbstractOutcome.INFO,
          some (VarName.list [VarNameElem.str "a", VarNameElem.str "b"]),
          some ⟨3, fun _ => CallResult.typeError, fun _ => CallResult.typeError⟩⟩
        (Value.list [Value.int 1, Value.int 2]) =
      Except.ok (Value.list [Value.int 1, Value.int 2]) :=
  ⟨claim_C7_identity_fallback.1 _ (Value.int 5) "y" rfl rfl,
    claim_C7_identity_fallback.1 _ (Value.int 3) "x" rfl rfl,
    claim_C7_identity_fallback.2.1 _ (Value.list [Value.int 1, Value.int 2])
      [VarNameElem.str "a", VarNameElem.str "b"] [Value.int 1, Value.int 2] rfl rfl rfl rfl⟩

/-- C8: over a table with `name` and `type` columns, `create_outcomes`
yields exactly one outcome per row in row order — `"scalar"` rows give
a `ScalarOutcome(name)`, `"timeseries"` rows a `TimeSeriesOutcome(name)`
— and the first row with any other `type` makes the whole call fail
with a `ValueError` identifying the offending name. -/
theorem claim_C8_create_outcomes (rows pre post : List Row) (r : Row) :
    ((∀ x ∈ rows, x.type = "scalar" ∨ x.type = "timeseries") →
      create_outcomes rows = Except.ok (rows.map mkRowOutcome))
    ∧ (rows = pre ++ r :: post →
      (∀ x ∈ pre, x.type = "scalar" ∨ x.type = "timeseries") →
      r.type ≠ "scalar" → r.type ≠ "timeseries" →
      create_outcomes rows =
        Except.error (PyError.valueError ("unknown type for " ++ r.name))) :=
  ⟨create_outcomes_all_valid rows,
    fun hsplit hpre h1 h2 => hsplit ▸ create_outcomes_first_bad pre r post hpre h1 h2⟩

/-- Witness for C8: rows `a`/`scalar` and `b`/`timeseries` give the two
outcomes in order; a single row `c`/`bogus` fails naming `c`. -/
theorem claim_C8_witness :
    create_outcomes [⟨"a", "scalar"⟩, ⟨"b", "timeseries"⟩] =
      Except.ok
        [⟨OutcomeClass.scalar, "a", AbstractOutcome.INFO, Option.none, Option.none⟩,
          ⟨OutcomeClass.timeseries, "b", AbstractOutcome.INFO, Option.none, Option.none⟩]
    ∧ create_outcomes [⟨"c", "bogus"⟩] =
      Except.error (PyError.valueError "unknown type for c") :=
  ⟨(claim_C8_create_outcomes [⟨"a", "scalar"⟩, ⟨"b", "timeseries"⟩] [] [] ⟨"c", "bogus"⟩).1
      (by decide),
    (claim_C8_create_outcomes [⟨"c", "bogus"⟩] [] [] ⟨"c", "bogus"⟩).2
      rfl (by simp) (by decide) (by decide)⟩

/-- C10: the arity check runs before the identity fallback — even with
`function = None`, a multi-name outcome given a mismatched value count
raises the arity `ValueError` (a `ValueError` is not a `TypeError`, so
the fallback does not trigger) instead of returning the values. -/
theorem claim_C10_arity_before_fallback (o : OutcomeObj) (ns : List VarNameElem) (values : Value)
    (hf : o.function = Option.none)
    (hvn : o.variable_name = VarName.list ns)
    (hlen : values.pyLen ≠ some ns.length) :
    o.process values = Except.error (PyError.valueError (arityMsg ns.length values.pyLen)) :=
  process_multi_arity_error o ns values hvn hlen

/-- Witness for C10: one declared name, unsized raw value `7`, no
function: the arity `ValueError` is raised, mentioning the unsized
length as `None`. -/
theorem claim_C10_witness :
    OutcomeObj.process
        ⟨OutcomeClass.timeseries, "y", AbstractOutcome.INFO,
          some (VarName.list [VarNameElem.str "a"]), Option.none⟩
        (Value.int 7) =
      Except.error (PyError.valueError "number of variables is 1, number of outputs is None") :=
  claim_C10_arity_before_fallback _ [VarNameElem.str "a"] _ rfl rfl (by decide)

end EMAWorkbench
